import Mathlib

/-!
Verification development for the iraqinews RSS proxy (src/main.py).

The file shallowly embeds the pipeline of `main.py`:
Python strings become `String`/`List Char` (both count Unicode code points,
as Python string indexing does), dynamic `feedparser` items become an
explicit optional-field record, attribute access that can raise
`AttributeError` returns `Except`, and the `xml.etree.ElementTree`
serialization (tags, attribute order, text escaping, self-closing empty
elements) together with the post-hoc string replacements of
`FeedResponse.create_xml_response` is reproduced as a pure function on an
XML tree type.  The three regular expressions used by
`FeedEntry._clean_description` and `_extract_images_from_content` are
embedded with Python `re` semantics (leftmost match, greedy and lazy
quantifier behaviour for the concrete patterns involved, `.` not crossing
a newline when `re.DOTALL` is off, non-overlapping `re.sub`).
-/

set_option maxRecDepth 100000

deriving instance DecidableEq for Except

namespace IraqiNews

/-- Python `a or b` for strings: `b` when `a` is falsy (empty), else `a`
(main.py:41 and the content fallback chain at main.py:173-179). -/
def pyOr (a b : String) : String := if a = "" then b else a

/-- Python truthiness of an optional string: `None` and `""` are falsy
(main.py:62 `if self.content:`, main.py:315 `if entry.published:`). -/
def pyTruthy (o : Option String) : Bool := !(o.getD "" == "")

/-- ASCII lower-casing of one code point, which is how Python `str.lower`
acts on the ASCII links this feed carries (main.py:193). -/
def pyLowerChar (c : Char) : Char :=
  if 65 ≤ c.toNat && c.toNat ≤ 90 then Char.ofNat (c.toNat + 32) else c

/-- Python `s.lower()` restricted to ASCII input (main.py:193). -/
def pyLower (s : String) : String := String.mk (s.data.map pyLowerChar)

/-- The pattern `pat` begins the character list `l`. -/
def beginsWith : List Char → List Char → Bool
  | [], _ => true
  | _ :: _, [] => false
  | a :: as, b :: bs => a == b && beginsWith as bs

/-- Python `needle in hay` substring containment, character-list form. -/
def containsSeq (needle : List Char) : List Char → Bool
  | [] => needle.isEmpty
  | c :: cs => beginsWith needle (c :: cs) || containsSeq needle cs

/-- Python `needle in hay` substring containment on strings (main.py:193). -/
def strContains (hay needle : String) : Bool := containsSeq needle.data hay.data

/-- Whitespace recognised by Python `str.split()` / `str.strip()`
(the ASCII whitespace class; the feed text involved is ASCII). -/
def isPyWs (c : Char) : Bool :=
  c == ' ' || c == '\t' || c == '\n' || c == '\r' || c == '\x0b' || c == '\x0c'

/-- Python `text.strip()` (main.py:95). -/
def pyStrip (l : List Char) : List Char :=
  ((l.dropWhile isPyWs).reverse.dropWhile isPyWs).reverse

/-- Python `text.split()`: split on whitespace runs, dropping empty pieces
(main.py:104). -/
def pyWordsAux : List Char → List Char → List (List Char)
  | [], acc => if acc.isEmpty then [] else [acc.reverse]
  | c :: cs, acc =>
    if isPyWs c then
      if acc.isEmpty then pyWordsAux cs [] else acc.reverse :: pyWordsAux cs []
    else pyWordsAux cs (c :: acc)

/-- `" ".join(words)` (main.py:104). -/
def joinSpace : List (List Char) → List Char
  | [] => []
  | [w] => w
  | w :: w2 :: ws => w ++ ' ' :: joinSpace (w2 :: ws)

/-- `" ".join(text.split())`: collapse whitespace runs to single spaces and
trim both ends (main.py:104). -/
def collapseWs (l : List Char) : List Char := joinSpace (pyWordsAux l [])

/-- Indices at which `lit` occurs in the list (ascending). -/
def occIdxsAux (lit : List Char) : List Char → Nat → List Nat
  | [], _ => []
  | c :: cs, i =>
    (if beginsWith lit (c :: cs) then [i] else []) ++ occIdxsAux lit cs (i + 1)

/-- Index of the last occurrence of `ch` in the list. -/
def lastIdxOf (ch : Char) : List Char → Option Nat
  | [] => none
  | c :: cs =>
    match lastIdxOf ch cs with
    | some k => some (k + 1)
    | none => if c == ch then some 0 else none

/-- Literal piece " appeared first on " of the boilerplate regex
`The post .+ appeared first on .+\.` (main.py:92). -/
def apLit : List Char := " appeared first on ".data

/-- Literal piece "The post " of the boilerplate regex (main.py:92). -/
def thePostLit : List Char := "The post ".data

/-- Number of characters of `seg` consumed by `.+ appeared first on .+\.`
matched against the start of `seg`, with Python's greedy backtracking: the
first `.+` stretches to the last viable " appeared first on ", the second
`.+` stretches to the last period after at least one character.  `none`
when the tail of the pattern cannot match. -/
def boilerConsumed (seg : List Char) : Option Nat :=
  ((occIdxsAux apLit seg 0).filterMap (fun j =>
    if j = 0 then none
    else
      match lastIdxOf '.' (seg.drop (j + apLit.length)) with
      | some k => if k = 0 then none else some (j + apLit.length + k + 1)
      | none => none)).getLast?

/-- Match `The post .+ appeared first on .+\.` at the head of `l`; since
`re.DOTALL` is off, `.` cannot cross a newline, so the match lives inside
the current line.  Returns the remainder after the match (main.py:92). -/
def matchBoiler (l : List Char) : Option (List Char) :=
  if beginsWith thePostLit l then
    let t := l.drop thePostLit.length
    let seg := t.takeWhile (fun c => c != '\n')
    match boilerConsumed seg with
    | some n => some (t.drop n)
    | none => none
  else none

/-- Leftmost match of the boilerplate pattern: `some (prefixBefore, rest)`
with `rest` the suffix after the matched region. -/
def findBoiler : List Char → Option (List Char × List Char)
  | [] => none
  | c :: cs =>
    match matchBoiler (c :: cs) with
    | some rest => some ([], rest)
    | none =>
      match findBoiler cs with
      | some (p, r) => some (c :: p, r)
      | none => none

/-- Non-overlapping `re.sub(pattern, "", text)` loop; one fuel unit per
replacement suffices because every match consumes characters. -/
def subBoilerAux : Nat → List Char → List Char
  | 0, l => l
  | fuel + 1, l =>
    match findBoiler l with
    | none => l
    | some (p, rest) => p ++ subBoilerAux fuel rest

/-- `re.sub(r"The post .+ appeared first on .+\.", "", text)` (main.py:92). -/
def subBoiler (l : List Char) : List Char := subBoilerAux l.length l

/-- The closing alternation `</(?:p|div)>` matches at this position
(main.py:97). -/
def closeTagHere (l : List Char) : Bool :=
  beginsWith "</p>".data l || beginsWith "</div>".data l

/-- Lazy `(.*?)` scan of the block body: stop at the earliest closing tag,
accumulating the group text (main.py:97, `re.DOTALL` is on, so any
character may be consumed). -/
def lazyCloseAux : List Char → List Char → Option (List Char)
  | [], _ => none
  | c :: cs, acc =>
    if closeTagHere (c :: cs) then some acc.reverse
    else lazyCloseAux cs (c :: acc)

/-- Match `<(?:p|div)[^>]*>(.*?)</(?:p|div)>` at the head of `l`, returning
group 1.  The alternation is decided by the next character, `[^>]*` runs
deterministically to the first `>`, and the lazy group stops at the first
closing tag (main.py:97). -/
def matchPDiv (l : List Char) : Option (List Char) :=
  match l with
  | '<' :: rest =>
    let tagLen : Option Nat :=
      if beginsWith ['p'] rest then some 1
      else if beginsWith "div".data rest then some 3
      else none
    match tagLen with
    | none => none
    | some n =>
      let after := rest.drop n
      let run := after.takeWhile (fun c => c != '>')
      match after.drop run.length with
      | '>' :: body => lazyCloseAux body []
      | _ => none
  | _ => none

/-- `re.search` of the block pattern: leftmost start wins (main.py:97). -/
def searchPDiv : List Char → Option (List Char)
  | [] => none
  | c :: cs =>
    match matchPDiv (c :: cs) with
    | some g => some g
    | none => searchPDiv cs

/-- `re.sub(r"<[^>]+>", " ", text)`: each tag span from a `<` through the
first following `>` with at least one character in between is replaced by a
single space; other characters pass through (main.py:101). -/
def subTagsAux : Nat → List Char → List Char
  | 0, l => l
  | _ + 1, [] => []
  | fuel + 1, c :: cs =>
    if c == '<' then
      let run := cs.takeWhile (fun x => x != '>')
      match cs.drop run.length with
      | '>' :: rest2 =>
        if run.isEmpty then c :: subTagsAux fuel cs
        else ' ' :: subTagsAux fuel rest2
      | _ => c :: subTagsAux fuel cs
    else c :: subTagsAux fuel cs

/-- `re.sub(r"<[^>]+>", " ", text)` (main.py:101). -/
def subTags (l : List Char) : List Char := subTagsAux l.length l

/-- The truncation step of `_clean_description`: texts longer than 500 code
points are cut to 497 code points plus `...` (main.py:107-108). -/
def truncate500L (l : List Char) : List Char :=
  if 500 < l.length then l.take 497 ++ ['.', '.', '.'] else l

/-- `FeedEntry._clean_description` (main.py:89-110): strip the "The post
... appeared first on ..." boilerplate, handle a leading-markup text by
extracting the first `<p>`/`<div>` block and spacing out remaining tags,
collapse whitespace, truncate. -/
def cleanDescriptionL (l : List Char) : List Char :=
  let t1 := subBoiler l
  let t2 :=
    if (pyStrip t1).head? == some '<' then
      let t3 :=
        match searchPDiv t1 with
        | some g => g
        | none => t1
      subTags t3
    else t1
  truncate500L (collapseWs t2)

/-- String-level wrapper of `FeedEntry._clean_description` (main.py:89-110). -/
def cleanDescription (s : String) : String := String.mk (cleanDescriptionL s.data)

/-- A normalized media dictionary as built at main.py:181-186 and
main.py:217-224: keys url, type, width, height, in that insertion order. -/
structure MediaDict where
  url : String
  type : String
  width : String
  height : String
deriving DecidableEq

/-- An upstream `media_content` dictionary: every key may be missing
(`m.get(...)` with defaults, main.py:182-185). -/
structure RawMedia where
  url : Option String
  type : Option String
  width : Option String
  height : Option String
deriving DecidableEq

/-- The normalized entry produced by `FeedEntry.__init__` (main.py:28-42). -/
structure FeedEntry where
  title : String
  link : String
  description : String
  published : Option String
  content : String
  media_content : List MediaDict
deriving DecidableEq

/-- `FeedEntry.__init__` (main.py:28-42): stores the fields verbatim except
`content`, which is `content or description`, so any falsy `content`
argument (absent or empty) falls back to the description. -/
def FeedEntry.make (title link description : String) (published : Option String)
    (content : Option String) (media_content : List MediaDict) : FeedEntry :=
  { title := title
    link := link
    description := description
    published := published
    content := pyOr (content.getD "") description
    media_content := media_content }

/-- Literal piece of the image regex `<img[^>]+src="([^"]+)"` (main.py:214). -/
def imgLit : List Char := "<img".data

/-- Literal piece src=(quote) of the image regex (main.py:214). -/
def srcLit : List Char := "src=\"".data

/-- Match `<img[^>]+src="([^"]+)"` at the head of `l` with greedy `[^>]+`
(the last viable src= inside the `>`-free run wins) and the group running
to the first quote.  Returns the group and the remainder after the match. -/
def imgMatchAt (l : List Char) : Option (List Char × List Char) :=
  if beginsWith imgLit l then
    let rest := l.drop imgLit.length
    let run := rest.takeWhile (fun c => c != '>')
    let cands := (occIdxsAux srcLit run 0).filterMap (fun j =>
      if j = 0 then none
      else
        let b := rest.drop (j + srcLit.length)
        let q := b.takeWhile (fun c => c != '"')
        if q.isEmpty then none
        else
          match b.drop q.length with
          | '"' :: _ => some (j, q)
          | _ => none)
    match cands.getLast? with
    | some (j, q) => some (q, rest.drop (j + srcLit.length + q.length + 1))
    | none => none
  else none

/-- `re.findall` loop for the image pattern: leftmost, non-overlapping. -/
def findImgsAux : Nat → List Char → List (List Char)
  | 0, _ => []
  | _ + 1, [] => []
  | fuel + 1, c :: cs =>
    match imgMatchAt (c :: cs) with
    | some (g, rest) => g :: findImgsAux fuel rest
    | none => findImgsAux fuel cs

/-- `img_pattern.findall(content)` (main.py:214-215). -/
def findImgSrcs (s : String) : List String :=
  (findImgsAux s.data.length s.data).map String.mk

/-- A parsed feedparser item.  `none` marks an absent attribute/key.
`contentValue` is `getattr(entry, "content", [{"value": ""}])[0].get("value")`
with `none` for an absent `content` attribute; the code's default makes the
absent case behave as `""`, and a dictionary missing the "value" key yields
Python `None`, which the following `or` chain treats exactly like `""`. -/
structure Item where
  title : Option String
  link : Option String
  summary : Option String
  description : Option String
  published : Option String
  contentValue : Option String
  media_content : List RawMedia
deriving DecidableEq

/-- Error kinds surfaced to the route handler: Python `AttributeError` from
dynamic attribute access, and fetch-layer exceptions. -/
inductive PyErr where
  | attributeError (field : String)
  | fetchError (msg : String)
deriving DecidableEq

/-- The content fallback chain (main.py:173-179 and main.py:207-211):
`content[0]["value"] or summary or description`, with `""` defaults for the
absent content and summary attributes. -/
def contentChain (it : Item) : String :=
  pyOr (it.contentValue.getD "") (pyOr (it.summary.getD "") (it.description.getD ""))

/-- `FeedManager._extract_images_from_content` (main.py:205-226): scan the
chosen content text for img tags and synthesize media dictionaries with
default type image/jpeg and 800x600 dimensions, keeping http URLs only. -/
def extractImages (it : Item) : List MediaDict :=
  ((findImgSrcs (contentChain it)).filter (fun u => beginsWith "http".data u.data)).map
    (fun u => { url := u, type := "image/jpeg", width := "800", height := "600" })

/-- The media normalization of main.py:180-190: keep upstream media entries
with a truthy url, filling defaults; when none survive, fall back to
scanning the content for images (`[...] or self._extract_images_from_content`). -/
def normMedia (it : Item) : List MediaDict :=
  let fromFeed := (it.media_content.filter (fun m => m.url.getD "" != "")).map
    (fun m =>
      { url := m.url.getD ""
        type := m.type.getD "image/jpeg"
        width := m.width.getD "800"
        height := m.height.getD "600" })
  if fromFeed.isEmpty then extractImages it else fromFeed

/-- The `FeedEntry(...)` keyword arguments of the comprehension at
main.py:167-191, evaluated in source order: `entry.title`, `entry.link` and
the eager default `entry.description` of `getattr(entry, "summary",
entry.description)` raise `AttributeError` when absent; `published`
defaults to `None`; `content` is the fallback chain (its final
`entry.description` access was already performed by the eager default);
`media_content` is the normalized media list. -/
def normalizeItem (it : Item) : Except PyErr FeedEntry :=
  match it.title with
  | none => .error (.attributeError "title")
  | some title =>
    match it.link with
    | none => .error (.attributeError "link")
    | some link =>
      match it.description with
      | none => .error (.attributeError "description")
      | some descDefault =>
        .ok (FeedEntry.make title link (it.summary.getD descDefault) it.published
          (some (pyOr (it.contentValue.getD "")
            (pyOr (it.summary.getD "") descDefault)))
          (normMedia it))

/-- The entry `normalizeItem` produces when title, link and description are
all present (total form, used to state the filter theorems). -/
def entryOfItem (it : Item) : FeedEntry :=
  FeedEntry.make (it.title.getD "") (it.link.getD "")
    (it.summary.getD (it.description.getD ""))
    it.published
    (some (contentChain it))
    (normMedia it)

/-- An item passes the filter of main.py:193 when its lower-cased link
contains "iraq/"; an absent link is read as empty here (the comprehension
itself raises instead, see `processEntries`). -/
def retained (it : Item) : Bool := strContains (pyLower (it.link.getD "")) "iraq/"

/-- The list comprehension of main.py:167-194: for each item, first the
filter clause reads `entry.link` (raising on an absent link), then a
retained item is normalized (raising on absent title or description); any
raise aborts the whole comprehension. -/
def processEntries : List Item → Except PyErr (List FeedEntry)
  | [] => .ok []
  | it :: rest =>
    match it.link with
    | none => .error (.attributeError "link")
    | some link =>
      if strContains (pyLower link) "iraq/" then
        match normalizeItem it with
        | .error e => .error e
        | .ok fe =>
          match processEntries rest with
          | .error e => .error e
          | .ok fes => .ok (fe :: fes)
      else processEntries rest

/-- A parsed feed: `feed.entries` (main.py:166). -/
structure Feed where
  entries : List Item

/-- The candidate URL list built by `FeedManager.__init__` for the default
base URL (main.py:122-127). -/
def feedUrls : List String :=
  ["https://iraqinews.com/feed/", "https://www.iraqinews.com/feed/",
   "https://iraqinews.com/rss/", "https://www.iraqinews.com/rss/"]

/-- The URL loop of `FeedManager.get_filtered_entries` (main.py:157-203):
try each candidate URL; a fetch or comprehension exception is recorded as
`last_error` and the next URL is tried; a feed with a non-empty `entries`
list returns the comprehension result (even when that result is empty); an
empty feed falls through without recording an error; after the loop the
recorded error is re-raised, else `[]` is returned. -/
def tryUrlsLoop (fetch : String → Except PyErr Feed) :
    List String → Option PyErr → Except PyErr (List FeedEntry)
  | [], none => .ok []
  | [], some e => .error e
  | url :: rest, lastErr =>
    match fetch url with
    | .error e => tryUrlsLoop fetch rest (some e)
    | .ok feed =>
      if feed.entries.isEmpty then tryUrlsLoop fetch rest lastErr
      else
        match processEntries feed.entries with
        | .error e => tryUrlsLoop fetch rest (some e)
        | .ok es => .ok es

/-- `FeedManager.get_filtered_entries` (main.py:157-203), parameterized by
the fetch collaborator. -/
def getFilteredEntries (fetch : String → Except PyErr Feed) :
    Except PyErr (List FeedEntry) :=
  tryUrlsLoop fetch feedUrls none

/-- One `xml.etree.ElementTree` element: tag, attributes in insertion
order, text (with `""` for Python `None`, which serializes identically),
children.  No element in this program carries a tail. -/
inductive XmlTree where
  | el (tag : String) (attrs : List (String × String)) (text : String)
      (children : List XmlTree)

/-- Tag accessor. -/
def XmlTree.tag : XmlTree → String
  | .el t _ _ _ => t

/-- Attribute-list accessor. -/
def XmlTree.attrs : XmlTree → List (String × String)
  | .el _ a _ _ => a

/-- Text accessor. -/
def XmlTree.text : XmlTree → String
  | .el _ _ x _ => x

/-- Children accessor. -/
def XmlTree.children : XmlTree → List XmlTree
  | .el _ _ _ cs => cs

/-- ElementTree `_escape_cdata` on one character: text content escapes
the ampersand and both angle brackets. -/
def escCdataChar (c : Char) : List Char :=
  if c == '&' then "&amp;".data
  else if c == '<' then "&lt;".data
  else if c == '>' then "&gt;".data
  else [c]

/-- ElementTree text escaping. -/
def escCdata (s : String) : String := String.mk ((s.data.map escCdataChar).flatten)

/-- ElementTree `_escape_attrib` on one character. -/
def escAttribChar (c : Char) : List Char :=
  if c == '&' then "&amp;".data
  else if c == '<' then "&lt;".data
  else if c == '>' then "&gt;".data
  else if c == '"' then "&quot;".data
  else if c == '\r' then "&#13;".data
  else if c == '\n' then "&#10;".data
  else if c == '\t' then "&#09;".data
  else [c]

/-- ElementTree attribute-value escaping. -/
def escAttrib (s : String) : String := String.mk ((s.data.map escAttribChar).flatten)

mutual

/-- `ET.tostring(..., encoding="unicode", method="xml")` on one element:
attributes in insertion order, text escaped, children in order, and a
self-closing ` />` form when the element has falsy text and no children. -/
def serializeXml : XmlTree → String
  | .el tag attrs text children =>
    let openTag := "<" ++ tag ++
      String.join (attrs.map (fun p => " " ++ p.1 ++ "=\"" ++ escAttrib p.2 ++ "\""))
    if text == "" && children.isEmpty then openTag ++ " />"
    else
      openTag ++ ">" ++ (if text == "" then "" else escCdata text) ++
        serializeKids children ++ "</" ++ tag ++ ">"

/-- Serialize a child list in order. -/
def serializeKids : List XmlTree → String
  | [] => ""
  | x :: xs => serializeXml x ++ serializeKids xs

end

/-- The per-entry `<item>` element built by
`FeedResponse.create_xml_response` (main.py:302-332): title, link, a
hardcoded dc:creator CDATA-marker text, pubDate when `entry.published` is
truthy, a hardcoded category, a guid whose isPermaLink attribute is always
"false" and whose text is the entry link, the raw description wrapped in
CDATA markers, and content:encoded (with newline padding inside the
markers) when `entry.content` is truthy. -/
def createItem (e : FeedEntry) : XmlTree :=
  XmlTree.el "item" [] ""
    ([XmlTree.el "title" [] e.title [],
      XmlTree.el "link" [] e.link [],
      XmlTree.el "dc:creator" [] "<![CDATA[IraqiNews]]>" []]
     ++ (if pyTruthy e.published then
           [XmlTree.el "pubDate" [] (e.published.getD "") []]
         else [])
     ++ [XmlTree.el "category" [] "<![CDATA[Iraq]]>" [],
         XmlTree.el "guid" [("isPermaLink", "false")] e.link [],
         XmlTree.el "description" [] ("<![CDATA[" ++ e.description ++ "]]>") []]
     ++ (if e.content == "" then []
         else
           [XmlTree.el "content:encoded" []
             ("<![CDATA[\n" ++ e.content ++ "\n]]>") []]))

/-- `FeedEntry.to_xml` (main.py:44-87).  This method exists on the entry
class but is never invoked by the serving route, which builds items through
`FeedResponse.create_xml_response` instead; it is embedded here because it
is the only place where `_clean_description` and the media loop are used. -/
def FeedEntry.toXml (e : FeedEntry) : XmlTree :=
  XmlTree.el "item" [] ""
    ([XmlTree.el "title" [] e.title [],
      XmlTree.el "link" [] e.link [],
      XmlTree.el "description" [] (cleanDescription e.description) []]
     ++ (if e.content == "" then []
         else
           [XmlTree.el "\x7bhttp://purl.org/rss/1.0/modules/content/\x7dencoded" []
             ("<![CDATA[" ++ e.content ++ "]]>") []])
     ++ (if pyTruthy e.published then
           [XmlTree.el "pubDate" [] (e.published.getD "") []]
         else [])
     ++ ((e.media_content.map (fun m =>
           [XmlTree.el "\x7bhttp://search.yahoo.com/mrss/\x7dcontent"
              [("url", m.url), ("type", m.type), ("width", m.width), ("height", m.height)]
              "" []]
           ++ (if beginsWith "image/".data m.type.data then
                 [XmlTree.el "\x7bhttp://search.yahoo.com/mrss/\x7dthumbnail"
                   [("url", m.url)] "" []]
               else []))).flatten)
     ++ [XmlTree.el "guid" [("isPermaLink", "true")] e.link []])

/-- The `<channel>` element of main.py:256-299 with its fixed metadata,
followed by the entry items; `now` stands for the formatted
`datetime.now()` value of main.py:274. -/
def channelTree (now : String) (entries : List FeedEntry) : XmlTree :=
  XmlTree.el "channel" [] ""
    ([XmlTree.el "title" [] "Iraqi News" [],
      XmlTree.el "atom:link"
        [("href", "https://www.iraqinews.com/feed/"), ("rel", "self"),
         ("type", "application/rss+xml")] "" [],
      XmlTree.el "link" [] "https://www.iraqinews.com/" [],
      XmlTree.el "description" [] "" [],
      XmlTree.el "lastBuildDate" [] now [],
      XmlTree.el "language" [] "en-US" [],
      XmlTree.el "sy:updatePeriod" [] "\n\thourly\t" [],
      XmlTree.el "sy:updateFrequency" [] "\n\t1\t" [],
      XmlTree.el "generator" [] "https://wordpress.org/?v=6.6.2" [],
      XmlTree.el "image" [] ""
        [XmlTree.el "url" []
          "https://www.iraqinews.com/wp-content/uploads/2021/11/cropped-favico-32x32.png" [],
         XmlTree.el "title" [] "Iraqi News" [],
         XmlTree.el "link" [] "https://www.iraqinews.com/" [],
         XmlTree.el "width" [] "32" [],
         XmlTree.el "height" [] "32" []]]
     ++ entries.map createItem)

/-- The `<rss>` root of main.py:248-254: the version attribute set at
construction, then the six namespace declarations in insertion order. -/
def rssTree (now : String) (entries : List FeedEntry) : XmlTree :=
  XmlTree.el "rss"
    [("version", "2.0"),
     ("xmlns:content", "http://purl.org/rss/1.0/modules/content/"),
     ("xmlns:wfw", "http://wellformedweb.org/CommentAPI/"),
     ("xmlns:dc", "http://purl.org/dc/elements/1.1/"),
     ("xmlns:atom", "http://www.w3.org/2005/Atom"),
     ("xmlns:sy", "http://purl.org/rss/1.0/modules/syndication/"),
     ("xmlns:slash", "http://purl.org/rss/1.0/modules/slash/")]
    "" [channelTree now entries]

/-- Python `str.replace`: all non-overlapping occurrences, left to right,
continuing after each replacement. -/
def replaceAllAux (pat rep : List Char) : Nat → List Char → List Char
  | _, [] => []
  | 0, l => l
  | fuel + 1, c :: cs =>
    if beginsWith pat (c :: cs) then rep ++ replaceAllAux pat rep fuel ((c :: cs).drop pat.length)
    else c :: replaceAllAux pat rep fuel cs

/-- Python `s.replace(pat, rep)` (main.py:342-350). -/
def pyReplace (s pat rep : String) : String :=
  String.mk (replaceAllAux pat.data rep.data s.data.length s.data)

/-- `FeedResponse.create_xml_response` body string (main.py:244-352): XML
declaration plus the serialized tree, then the CDATA-marker un-escaping
replacements, then the indentation replacements, all in source order. -/
def createXmlResponse (now : String) (entries : List FeedEntry) : String :=
  let xmlStr := "<?xml version=\"1.0\" encoding=\"UTF-8\"?>" ++ "\n" ++
    serializeXml (rssTree now entries)
  let s1 := pyReplace (pyReplace xmlStr "&lt;![CDATA[" "<![CDATA[") "]]&gt;" "]]>"
  let s2 := pyReplace s1 "<rss" "<rss\n\t"
  let s3 := pyReplace s2 " xmlns:" "\n\txmlns:"
  let s4 := pyReplace s3 "<channel>" "\n<channel>"
  let s5 := pyReplace s4 "</channel>" "\n</channel>"
  let s6 := pyReplace s5 "<item>" "\n\t<item>"
  pyReplace s6 "</item>" "\n\t</item>"

/-- An HTTP response as produced by the route handler: status and body. -/
structure HttpResponse where
  status : Nat
  body : String
deriving DecidableEq

/-- The `filtered_feed` route handler (main.py:377-391), applied to the
outcome of `get_filtered_entries`: an exception gives 500 with a generic
plain-text body, an empty entry list gives 503 with a short plain-text
body, and otherwise the serialized RSS document is returned with 200. -/
def filteredFeedRoute (now : String) (result : Except PyErr (List FeedEntry)) :
    HttpResponse :=
  match result with
  | .error _ => { status := 500, body := "Internal server error" }
  | .ok [] => { status := 503, body := "No entries found in the feed" }
  | .ok entries => { status := 200, body := createXmlResponse now entries }

/-- Tags of an element's children, in emission order. -/
def childTags (x : XmlTree) : List String := x.children.map XmlTree.tag

/-- Text of the first child with the given tag. -/
def childText (x : XmlTree) (t : String) : Option String :=
  (x.children.find? (fun c => c.tag == t)).map XmlTree.text

/-- Attribute list of the first child with the given tag. -/
def childAttrs (x : XmlTree) (t : String) : Option (List (String × String)) :=
  (x.children.find? (fun c => c.tag == t)).map XmlTree.attrs

/-- A well-formed item: a retained item of this shape is normalized without
raising (title, link and description attributes all present). -/
def ItemGood (it : Item) : Prop :=
  it.title.isSome ∧ it.link.isSome ∧ it.description.isSome

instance (it : Item) : Decidable (ItemGood it) := by
  unfold ItemGood; infer_instance

/-- A concrete item whose link matches the filter and whose required
attributes are all present. -/
def goodItem : Item :=
  { title := some "Good", link := some "https://www.iraqinews.com/iraq/good/",
    summary := none, description := some "good description", published := none,
    contentValue := none, media_content := [] }

/-- A concrete retained item whose `title` attribute is absent. -/
def badItem : Item :=
  { title := none, link := some "https://www.iraqinews.com/iraq/bad/",
    summary := none, description := some "bad description", published := none,
    contentValue := none, media_content := [] }

/-- A concrete item whose link contains "iraq/" but not "/iraq/". -/
def notIraqItem : Item :=
  { title := some "N", link := some "https://example.com/notiraq/x",
    summary := none, description := some "d", published := none,
    contentValue := none, media_content := [] }

/-- A concrete item whose `link` attribute is absent. -/
def noLinkItem : Item :=
  { title := some "T", link := none,
    summary := none, description := some "d", published := none,
    contentValue := none, media_content := [] }

/-- Entry whose description carries raw HTML markup. -/
def c1Entry : FeedEntry :=
  FeedEntry.make "Title" "https://www.iraqinews.com/iraq/a/" "<b>bold</b>" none none []

/-- Entry with published date, content and one image media dictionary. -/
def c5Entry : FeedEntry :=
  FeedEntry.make "T" "https://www.iraqinews.com/iraq/a/" "d"
    (some "Mon, 06 Jan 2025 10:00:00 +0000") (some "full")
    [{ url := "https://img.example/i.jpg", type := "image/jpeg",
       width := "800", height := "600" }]

/-- Entry whose description carries the trailing boilerplate sentence. -/
def c6Entry : FeedEntry :=
  FeedEntry.make "T" "https://www.iraqinews.com/iraq/x/"
    "Great story. The post Foo appeared first on Bar." none (some "FULL") []

/-- A well-formed item is normalized to its total normal form. -/
theorem normalizeItem_good (it : Item) (h : ItemGood it) :
    normalizeItem it = Except.ok (entryOfItem it) := by
  obtain ⟨ht, hl, hd⟩ := h
  obtain ⟨t, ht2⟩ := Option.isSome_iff_exists.mp ht
  obtain ⟨l, hl2⟩ := Option.isSome_iff_exists.mp hl
  obtain ⟨d, hd2⟩ := Option.isSome_iff_exists.mp hd
  simp [normalizeItem, entryOfItem, contentChain, ht2, hl2, hd2]

/-- Claim C7: every description at most 500 code points long passes the
truncation step unchanged; a longer one is cut to 497 code points plus the
three-character marker, so it ends up exactly 500 code points long and
ending in "..."; in particular a 600-character plain-text description
cleans to exactly 500 characters ending in "...".  Truncation counts code
points (the embedding operates on `Char` lists, never on bytes). -/
theorem c7_truncation_semantics :
    (∀ l : List Char, l.length ≤ 500 → truncate500L l = l) ∧
    (∀ l : List Char, 500 < l.length →
      (truncate500L l).length = 500 ∧
        List.IsSuffix ['.', '.', '.'] (truncate500L l)) ∧
    cleanDescription (String.mk (List.replicate 600 'a')) =
      String.mk (List.replicate 497 'a' ++ ['.', '.', '.']) := by
  refine ⟨?_, ?_, ?_⟩
  · intro l h
    unfold truncate500L
    rw [if_neg (by omega)]
  · intro l h
    unfold truncate500L
    rw [if_pos h]
    constructor
    · simp
      omega
    · exact ⟨l.take 497, rfl⟩
  · decide

/-- Witness for C7 at concrete inputs. -/
theorem c7_witness :
    truncate500L ['a'] = ['a'] ∧
      (truncate500L (List.replicate 501 'b')).length = 500 :=
  ⟨c7_truncation_semantics.1 ['a'] (by decide),
   (c7_truncation_semantics.2.1 (List.replicate 501 'b') (by decide)).1⟩

/-- Claim C8: cleaning the description "Great story. The post Foo appeared
first on Bar." removes the trailing boilerplate sentence and collapses the
surrounding whitespace, yielding exactly "Great story.". -/
theorem c8_boilerplate_scenario :
    cleanDescription "Great story. The post Foo appeared first on Bar." =
      "Great story." := by
  decide

/-- Claim C9: for every constructed entry, a non-empty description forces a
non-empty content (the constructor falls back to the description whenever
the content argument is falsy). -/
theorem c9_content_never_empty (t l d : String) (p c : Option String)
    (m : List MediaDict) (hd : d ≠ "") :
    (FeedEntry.make t l d p c m).content ≠ "" := by
  show pyOr (c.getD "") d ≠ ""
  unfold pyOr
  by_cases h : c.getD "" = "" <;> simp [h, hd]

/-- Witness for C9 at a concrete entry. -/
theorem c9_witness :
    ("d" : String) ≠ "" ∧ (FeedEntry.make "t" "l" "d" none none []).content ≠ "" :=
  ⟨by decide, c9_content_never_empty "t" "l" "d" none none [] (by decide)⟩

/-- Claim C10: constructing a `FeedEntry` with a present-but-empty content
argument stores the description as content: the fallback fires on any
falsy value, not only on an absent one. -/
theorem c10_empty_content_falls_back (t l d : String) (p : Option String)
    (m : List MediaDict) :
    (FeedEntry.make t l d p (some "") m).content = d := by
  simp [FeedEntry.make, pyOr]

/-- Claim C1, evaluated at the failing input: serializing an entry whose
description is "<b>bold</b>" yields a document in which the CDATA markers
are literal but the field text between them is still XML-escaped — the
output contains the span with &lt;/&gt; substitutions inside it and does
not contain the unescaped span the claim requires.  The post-hoc
replacements of main.py:342 restore only the marker substrings, not the
escaped text between them. -/
theorem c1_cdata_escaped :
    strContains (createXmlResponse "NOW" [c1Entry])
        "<![CDATA[&lt;b&gt;bold&lt;/b&gt;]]>" = true ∧
      strContains (createXmlResponse "NOW" [c1Entry])
        "<![CDATA[<b>bold</b>]]>" = false := by
  decide

/-- Counterexample to claim C2 as stated: an item whose link contains
"iraq/" but not "/iraq/" is retained (the code at main.py:193 matches the
slash-less substring), and an item with an absent link raises
`AttributeError`, aborting the whole comprehension rather than being
skipped. -/
theorem c2_counterexample :
    processEntries [notIraqItem] = Except.ok [entryOfItem notIraqItem] ∧
      strContains (pyLower "https://example.com/notiraq/x") "/iraq/" = false ∧
      processEntries [noLinkItem] =
        Except.error (PyErr.attributeError "link") := by
  decide

/-- Claim C2 as amended: on item lists whose members all carry the three
required attributes, the comprehension succeeds and returns exactly the
order-preserving subsequence of items whose lower-cased link contains the
substring "iraq/" (no leading slash), each mapped to its normalized entry;
an empty link is never retained (it cannot contain "iraq/"). -/
theorem c2_filter_subsequence (items : List Item)
    (h : ∀ it ∈ items, ItemGood it) :
    processEntries items =
      Except.ok ((items.filter retained).map entryOfItem) := by
  induction items with
  | nil => rfl
  | cons it rest ih =>
    have hgood : ItemGood it := h it (List.mem_cons_self it rest)
    obtain ⟨l, hl2⟩ := Option.isSome_iff_exists.mp hgood.2.1
    have hnorm : normalizeItem it = Except.ok (entryOfItem it) :=
      normalizeItem_good it hgood
    have ihr := ih (fun j hj => h j (List.mem_cons_of_mem _ hj))
    have hret : retained it = strContains (pyLower l) "iraq/" := by
      simp [retained, hl2]
    by_cases hc : strContains (pyLower l) "iraq/" = true
    · simp [processEntries, hl2, hc, hnorm, ihr, List.filter_cons, hret]
    · have hc2 : strContains (pyLower l) "iraq/" = false :=
        Bool.not_eq_true _ ▸ (Bool.eq_false_iff.mpr hc)
      simp [processEntries, hl2, hc2, ihr, List.filter_cons, hret]

/-- Witness for the amended C2 at a concrete list. -/
theorem c2_witness :
    processEntries [goodItem, notIraqItem] =
      Except.ok (([goodItem, notIraqItem].filter retained).map entryOfItem) :=
  c2_filter_subsequence [goodItem, notIraqItem] (by decide)

/-- When every candidate URL fails to fetch, the loop records each error
and ends by raising the last one. -/
theorem tryUrlsLoop_allFail_error (fetch : String → Except PyErr Feed)
    (hf : ∀ u, ∃ e, fetch u = Except.error e) :
    ∀ (urls : List String) (le : Option PyErr), (urls = [] → le.isSome) →
      ∃ e, tryUrlsLoop fetch urls le = Except.error e := by
  intro urls
  induction urls with
  | nil =>
    intro le hle
    obtain ⟨e, he⟩ := Option.isSome_iff_exists.mp (hle rfl)
    exact ⟨e, by simp [tryUrlsLoop, he]⟩
  | cons u rest ih =>
    intro le _
    obtain ⟨e, he⟩ := hf u
    obtain ⟨e2, he2⟩ := ih (some e) (fun _ => rfl)
    exact ⟨e2, by simp [tryUrlsLoop, he, he2]⟩

/-- Counterexample to claim C3 as stated: when the fetcher fails for every
candidate URL, `get_filtered_entries` re-raises the last error, the route's
exception handler answers, and the response status is 500, not the claimed
503. -/
theorem c3_counterexample :
    (filteredFeedRoute "NOW"
        (getFilteredEntries (fun _ => Except.error (PyErr.fetchError "boom")))).status
        = 500 ∧
      (filteredFeedRoute "NOW"
        (getFilteredEntries (fun _ => Except.error (PyErr.fetchError "boom")))).status
        ≠ 503 := by
  decide

/-- Claim C3 as amended: the route answers 503 with the short plain-text
body exactly when the pipeline returns an empty entry list; every raised
error — including the fetcher failing on all candidate URLs, which makes
`get_filtered_entries` raise — is mapped to 500 with a generic plain-text
body. -/
theorem c3_status_mapping (now : String) (r : Except PyErr (List FeedEntry)) :
    ((filteredFeedRoute now r).status = 503 ↔ r = Except.ok []) ∧
      ((filteredFeedRoute now r).status = 500 ↔ ∃ e, r = Except.error e) ∧
      (filteredFeedRoute now (Except.ok [])).body = "No entries found in the feed" ∧
      (∀ e, (filteredFeedRoute now (Except.error e)).body = "Internal server error") ∧
      (∀ fetch : String → Except PyErr Feed,
        (∀ u, ∃ e, fetch u = Except.error e) →
          ∃ e, getFilteredEntries fetch = Except.error e) := by
  refine ⟨?_, ?_, rfl, fun e => rfl, ?_⟩
  · match r with
    | .error e => simp [filteredFeedRoute]
    | .ok [] => simp [filteredFeedRoute]
    | .ok (x :: xs) => simp [filteredFeedRoute]
  · match r with
    | .error e => simp [filteredFeedRoute]
    | .ok [] => simp [filteredFeedRoute]
    | .ok (x :: xs) => simp [filteredFeedRoute]
  · intro fetch hf
    exact tryUrlsLoop_allFail_error fetch hf feedUrls none
      (fun h => absurd h (by decide))

/-- Witness for the amended C3 at concrete inputs. -/
theorem c3_witness :
    (filteredFeedRoute "NOW" (Except.ok [])).status = 503 ∧
      ∃ e, getFilteredEntries (fun _ => Except.error (PyErr.fetchError "x")) =
        Except.error e :=
  ⟨(c3_status_mapping "NOW" (Except.ok [])).1.mpr rfl,
   (c3_status_mapping "NOW" (Except.ok [])).2.2.2.2 _
     (fun _ => ⟨PyErr.fetchError "x", rfl⟩)⟩

/-- Counterexample to claim C4 as stated: a feed holding a well-formed item
followed by a retained item with a missing title makes the whole
comprehension raise `AttributeError`; the bad item is not dropped and no
output is produced from the remaining items. -/
theorem c4_counterexample :
    processEntries [goodItem, badItem] =
        Except.error (PyErr.attributeError "title") ∧
      processEntries [goodItem, badItem] ≠ Except.ok [entryOfItem goodItem] := by
  decide

/-- Claim C4 as amended: an item with an absent link, or a retained item
with an absent title, makes the comprehension for that URL raise (any
well-formed items before it notwithstanding); `get_filtered_entries` then
records the exception and moves to the next candidate URL — single items
are never dropped. -/
theorem c4_malformed_item_aborts (pre post : List Item) (it : Item)
    (hpre : ∀ j ∈ pre, ItemGood j)
    (hbad : it.link = none ∨ (retained it = true ∧ it.title = none)) :
    ∃ e, processEntries (pre ++ it :: post) = Except.error e := by
  induction pre with
  | nil =>
    rw [List.nil_append]
    rcases hbad with hln | ⟨hr, htn⟩
    · exact ⟨PyErr.attributeError "link", by simp [processEntries, hln]⟩
    · match hl : it.link with
      | none => exact ⟨PyErr.attributeError "link", by simp [processEntries, hl]⟩
      | some l =>
        have hc : strContains (pyLower l) "iraq/" = true := by
          simpa [retained, hl] using hr
        exact ⟨PyErr.attributeError "title",
          by simp [processEntries, hl, hc, normalizeItem, htn]⟩
  | cons g rest ih =>
    have hggood : ItemGood g := hpre g (List.mem_cons_self g rest)
    obtain ⟨l, hgl2⟩ := Option.isSome_iff_exists.mp hggood.2.1
    obtain ⟨e, he⟩ := ih (fun j hj => hpre j (List.mem_cons_of_mem _ hj))
    have hnorm : normalizeItem g = Except.ok (entryOfItem g) :=
      normalizeItem_good g hggood
    refine ⟨e, ?_⟩
    by_cases hc : strContains (pyLower l) "iraq/" = true
    · simp [processEntries, hgl2, hc, hnorm, List.cons_append, he]
    · have hc2 : strContains (pyLower l) "iraq/" = false :=
        Bool.eq_false_iff.mpr hc
      simp [processEntries, hgl2, hc2, List.cons_append, he]

/-- Witness for the amended C4 at a concrete list. -/
theorem c4_witness :
    ∃ e, processEntries ([goodItem] ++ badItem :: []) = Except.error e :=
  c4_malformed_item_aborts [goodItem] [] badItem (by decide)
    (Or.inr (by decide))

/-- Counterexample to claim C5 as stated: for a served entry with media
and a published date, the guid text equals the entry link yet the
isPermaLink attribute is "false" (the claim requires "true" when they are
equal), and no media:content or media:thumbnail element appears among the
item's children even though the entry's media list is non-empty. -/
theorem c5_counterexample :
    childText (createItem c5Entry) "guid" = some c5Entry.link ∧
      childAttrs (createItem c5Entry) "guid" = some [("isPermaLink", "false")] ∧
      c5Entry.media_content ≠ [] ∧
      childTags (createItem c5Entry) =
        ["title", "link", "dc:creator", "pubDate", "category", "guid",
         "description", "content:encoded"] := by
  decide

/-- Claim C5 as amended: the served item's children come in the fixed
order title, link, dc:creator (always, with fixed text), pubDate (only
when published is truthy), category (always, with fixed text), guid,
description, content:encoded (only when content is truthy); the guid's
isPermaLink attribute is always "false" while its text is always the entry
link; and no media:content or media:thumbnail element is ever emitted. -/
theorem c5_item_shape (e : FeedEntry) :
    childTags (createItem e) =
        ["title", "link", "dc:creator"]
          ++ (if pyTruthy e.published then ["pubDate"] else [])
          ++ ["category", "guid", "description"]
          ++ (if e.content == "" then [] else ["content:encoded"]) ∧
      childText (createItem e) "guid" = some e.link ∧
      childAttrs (createItem e) "guid" = some [("isPermaLink", "false")] ∧
      "media:content" ∉ childTags (createItem e) ∧
      "media:thumbnail" ∉ childTags (createItem e) := by
  cases hp : pyTruthy e.published <;> cases hc : e.content == "" <;>
    simp [createItem, childTags, childText, childAttrs, XmlTree.children,
      XmlTree.tag, XmlTree.text, XmlTree.attrs, hp, hc, List.find?]

/-- Counterexample to claim C6 as stated: the description emitted for a
served entry is its raw description wrapped in CDATA markers — boilerplate
intact, whitespace untouched — not the cleaned preview text, and the raw
boilerplate sentence survives into the final document byte stream. -/
theorem c6_counterexample :
    childText (createItem c6Entry) "description" =
        some "<![CDATA[Great story. The post Foo appeared first on Bar.]]>" ∧
      childText (createItem c6Entry) "description" ≠
        some ("<![CDATA[" ++ cleanDescription c6Entry.description ++ "]]>") ∧
      strContains (createXmlResponse "NOW" [c6Entry])
        "The post Foo appeared first on Bar." = true := by
  decide

/-- Claim C6 as amended: the serving path emits the raw entry description
inside CDATA markers with no cleanup applied, and content:encoded carries
the full content unmodified except for the newline padding inside the
markers; `_clean_description` is applied only by `FeedEntry.to_xml`, which
the serving route never invokes. -/
theorem c6_raw_description_served (e : FeedEntry) :
    childText (createItem e) "description" =
        some ("<![CDATA[" ++ e.description ++ "]]>") ∧
      childText (createItem e) "content:encoded" =
        (if e.content == "" then none
         else some ("<![CDATA[\n" ++ e.content ++ "\n]]>")) ∧
      childText e.toXml "description" = some (cleanDescription e.description) := by
    cases hp : pyTruthy e.published <;> cases hc : e.content == "" <;>
      simp [createItem, FeedEntry.toXml, childText, XmlTree.children,
        XmlTree.tag, XmlTree.text, hp, hc, List.find?]

end IraqiNews
